import Mathlib

/-!
# Verification of the portfolio deployment and health-check workflow

This file gives a shallow embedding, in Lean 4, of the operational core of the
`dev-resume` repository:

* the Node.js health-check service (`health-check.js`, a.k.a. `src/unnamed/part_004`):
  the sub-checks, the aggregate report of `HealthChecker.runHealthChecks`, and the
  HTTP handlers `handleHealthCheck`, `handleLivenessCheck`, `handleMetrics`;
* the Bash deployment scripts (`src/scripts/deploy.sh`, and the enhanced variant
  `src/unnamed/part_003`): the step sequence of `main`, `create_backup`,
  the postcondition of `build_application`, `reload_nginx`, both `rollback` variants,
  `cleanup_backups`, and the `health_check` retry loop.

Every definition is translated from the source files; comments cite the file and
line numbers of the code each definition embeds.  Theorems then settle the frozen
claims about the spec.
-/

namespace HealthService

/-! ## Health-check service (`src/unnamed/part_004`)

The service runs three sub-checks and aggregates them.  Each sub-check produces a
record with a `name` and a `status` string that is either `"healthy"` or
`"unhealthy"` (lines 84-113, 120-148, 173-213 of part_004).  We embed the status
as a two-valued type and keep the check name as a string. -/

inductive Status where
  | healthy
  | unhealthy
deriving DecidableEq, Repr

structure CheckResult where
  name : String
  status : Status
deriving DecidableEq, Repr

/-- The external world the three sub-checks observe: the HTTP outcome of probing
the main application, the filesystem facts, and the resource readings.
`mainAppOutcome`: `none` models a request error or timeout (part_004 lines
96-113), `some c` a response with status code `c` (lines 84-92). -/
structure ProbeEnv where
  mainAppOutcome : Option Nat
  distExists : Bool
  indexExists : Bool
  diskUsagePercent : ℚ
  memoryUsagePercent : ℚ
  cpuUsagePercent : ℚ

/-- Thresholds from `CONFIG.criticalThresholds` (part_004 lines 22-26). -/
def memoryThreshold : ℚ := 90
def cpuThreshold : ℚ := 90
def diskThreshold : ℚ := 95

/-- Embeds `HealthChecker.checkMainApp` (part_004 lines 74-117): healthy iff the
request yields a response with `200 <= statusCode < 400` (line 85); an error or
timeout resolves to unhealthy (lines 96-113). -/
def checkMainApp (e : ProbeEnv) : CheckResult :=
  match e.mainAppOutcome with
  | some c => ⟨"main_app", if 200 ≤ c ∧ c < 400 then .healthy else .unhealthy⟩
  | none => ⟨"main_app", .unhealthy⟩

/-- Embeds `HealthChecker.checkFilesystem` (part_004 lines 120-149): healthy iff the
`dist` directory and `dist/index.html` exist and disk usage is below the
configured critical threshold (line 135). -/
def checkFilesystem (e : ProbeEnv) : CheckResult :=
  ⟨"filesystem",
    if e.distExists ∧ e.indexExists ∧ e.diskUsagePercent < diskThreshold
    then .healthy else .unhealthy⟩

/-- Embeds `HealthChecker.checkSystemResources` (part_004 lines 173-214): healthy iff
memory and CPU usage are below the configured thresholds (lines 184-185). -/
def checkSystemResources (e : ProbeEnv) : CheckResult :=
  ⟨"system_resources",
    if e.memoryUsagePercent < memoryThreshold ∧ e.cpuUsagePercent < cpuThreshold
    then .healthy else .unhealthy⟩

structure HealthReport where
  status : Status
  checks : List CheckResult
deriving DecidableEq, Repr

/-- Embeds `HealthChecker.runHealthChecks` (part_004 lines 232-255): runs the three
sub-checks, and the overall status is `healthy` iff every sub-check reported
`healthy` (the `every` test on the check statuses, lines 239-240). -/
def runHealthChecks (e : ProbeEnv) : HealthReport :=
  let checks := [checkMainApp e, checkFilesystem e, checkSystemResources e]
  let allHealthy := checks.all (fun c => c.status = .healthy)
  { status := if allHealthy then .healthy else .unhealthy, checks := checks }

/-- Embeds `HealthServer.handleHealthCheck` (part_004 lines 303-309): serves the full
report with status code 200 if the overall status is healthy, else 503
(line 305). -/
def handleHealthCheck (e : ProbeEnv) : Nat × HealthReport :=
  let health := runHealthChecks e
  (if health.status = .healthy then 200 else 503, health)

/-- Embeds `HealthServer.handleLivenessCheck` (part_004 lines 312-315): writes 200
unconditionally; the handler never consults the health state. -/
def handleLivenessCheck (_e : ProbeEnv) : Nat := 200

/-- The rendering of one gauge value of `/metrics`: 1 when the status is
healthy and 0 otherwise (part_004 lines 340 and 350). -/
def gaugeValue (s : Status) : Nat := if s = .healthy then 1 else 0

structure MetricsResponse where
  statusCode : Nat
  overallGauge : Nat
  uptimeSeconds : Nat
  checkGauges : List (String × Nat)
deriving DecidableEq, Repr

/-- Embeds `HealthServer.handleMetrics` (part_004 lines 332-354): re-runs the health
checks, then unconditionally writes status code 200 (line 336) and renders the
overall-status gauge (line 340) and one 0/1 gauge per sub-check (lines 347-351). -/
def handleMetrics (e : ProbeEnv) (uptime : Nat) : MetricsResponse :=
  let health := runHealthChecks e
  { statusCode := 200
    overallGauge := gaugeValue health.status
    uptimeSeconds := uptime
    checkGauges := health.checks.map (fun c => (c.name, gaugeValue c.status)) }

end HealthService

namespace DeployScript

/-! ## Backup cleanup (`src/scripts/deploy.sh` lines 253-262, `part_003` 290-299)

```
cd "$BACKUP_PATH"
ls -t | tail -n +6 | xargs -r rm -rf
```

`ls -t` lists the entries of the backup directory sorted by modification time,
newest first; `tail -n +6` keeps the listing from line 6 on (dropping the first
five lines); `xargs -r rm -rf` deletes those entries.  We model the backup
directory as a list of entries with a name and an mtime, and the value of
`cleanup_backups` is the set of entries that survive the deletion. -/

section Cleanup

variable {α : Type} [DecidableEq α] (mtime : α → Nat)

/-- The order `ls -t` sorts by: `a` comes before `b` when the modification
time of `b` is at most that of `a` (newest first). -/
def newestFirst (a b : α) : Prop := mtime b ≤ mtime a

instance : DecidableRel (newestFirst mtime) :=
  fun a b => Nat.decLe (mtime b) (mtime a)

instance : IsTotal α (newestFirst mtime) :=
  ⟨fun a b => Nat.le_total (mtime b) (mtime a)⟩

instance : IsTrans α (newestFirst mtime) :=
  ⟨fun _ _ _ hab hbc => Nat.le_trans hbc hab⟩

/-- Embeds `ls -t`: the directory entries sorted by modification time, newest first.
The entries are generic in what a directory entry carries beyond its mtime:
for `cleanup_backups` run from the deployment pipeline they are the backup
directories themselves. -/
def lsT (dir : List α) : List α :=
  dir.insertionSort (newestFirst mtime)

/-- Embeds `tail -n +K`: the listing starting at line `K`, i.e. with the first
`K - 1` lines dropped. -/
def tailFrom (k : Nat) (l : List α) : List α := l.drop (k - 1)

/-- Embeds `cleanup_backups`: deletes `ls -t | tail -n +6` from the backup directory
(`xargs -r rm -rf`); the value is the surviving directory contents. -/
def cleanup_backups (dir : List α) : List α :=
  let doomed := tailFrom 6 (lsT mtime dir)
  dir.filter (fun e => !(doomed.contains e))

end Cleanup

/-- A named entry of the backup directory, as `ls -t` sees it. -/
structure DirEntry where
  name : String
  mtime : Nat
deriving DecidableEq, Repr

/-! ## Shell health check (`src/scripts/deploy.sh` lines 105-126)

`health_check url max_attempts` loops `while [[ attempt -le max_attempts ]]`,
each iteration invoking `curl -f -s "$url"`; on success it returns 0, on
failure it sleeps 2 seconds and increments `attempt`; when the loop exhausts
the attempts it calls `error` (log + `exit 1`).  `outcomes k` tells whether the
curl invocation of attempt number `k` succeeds. -/

structure HealthCheckRun where
  attemptsMade : Nat
  succeeded : Bool
deriving DecidableEq, Repr

/-- The `while [[ attempt -le max_attempts ]]` loop body; the fuel argument is
`max_attempts - attempt + 1`, the number of iterations the guard still allows. -/
def healthCheckGo (outcomes : Nat → Bool) : Nat → Nat → HealthCheckRun
  | _, 0 => ⟨0, false⟩
  | attempt, fuel + 1 =>
    if outcomes attempt then ⟨1, true⟩
    else
      let r := healthCheckGo outcomes (attempt + 1) fuel
      ⟨r.attemptsMade + 1, r.succeeded⟩

/-- Embeds `health_check`, which starts at `attempt=1` and allows at most `maxAttempts`
iterations of the guard. -/
def health_check (outcomes : Nat → Bool) (maxAttempts : Nat) : HealthCheckRun :=
  healthCheckGo outcomes 1 maxAttempts

/-- The options `health_check` passes to curl (deploy.sh line 114:
`curl -f -s "$url"`). -/
def curlFlags : List String := ["-f", "-s"]

/-- The curl command-line options that bound how long a single request may
take. -/
def curlTimeoutOptions : List String :=
  ["-m", "--max-time", "--connect-timeout"]

/-- Whether the curl invocation in the script carries any per-attempt timeout
option. -/
def curlHasTimeoutFlag : Bool :=
  curlFlags.any (fun f => curlTimeoutOptions.contains f)

/-- Embeds `HEALTH_CHECK_TIMEOUT` (deploy.sh line 15).  The variable is assigned once
and never referenced again in the script — in particular it is not passed to
curl. -/
def HEALTH_CHECK_TIMEOUT : Nat := 30

/-! ## The deployment pipeline (`src/scripts/deploy.sh` `main`, lines 295-323)

`main` runs the deployment steps in sequence under `set -euo pipefail` with
`trap rollback ERR` installed at line 303.

A central point of the embedding is what happens when a step fails.  Bash
semantics (deploy.sh line 6 is `set -euo pipefail`, which does NOT include
`set -E`/errtrace):

* a trap on ERR is not inherited by the bodies of shell functions unless
  errtrace is set, so when a command inside a step function (for example
  `npm run build` in `build_application`) exits non-zero, `set -e` terminates
  the script from inside that function without executing the ERR trap that
  `main` installed;
* the `error` helper (lines 30-33) is `log` followed by `exit 1`, and the
  `exit` builtin does not raise ERR either.

Hence a failing deployment step terminates the script immediately — remaining
steps are short-circuited — but the `trap rollback ERR` handler never runs for
it.  (Checked against GNU bash 5.2 behaviour; the same holds for the enhanced
variant `part_003`, whose trap at line 340 runs `handle_deployment_error`,
because its steps fail only through the `exit 1` inside `error`.)  The constant below
records this semantic fact and is the single point where the model decides
whether a step failure reaches the trap. -/

def errTrapRunsOnStepFailure : Bool := false

/-- The bytes of a file or directory tree, abstractly. -/
abbrev Content := List Nat

/-- One timestamp-named directory under `BACKUP_PATH`, as `create_backup`
populates it (deploy.sh lines 88-103): `mkdir -p` always creates the
directory; the `dist` tree and the two metadata files are copied into it only
when `DEPLOY_PATH/dist` exists (and each metadata file only when present,
`cp ... 2>/dev/null || true`). -/
structure BackupDir where
  timestamp : Nat
  dist : Option Content
  packageJson : Option Content
  ecosystem : Option Content
deriving DecidableEq, Repr

/-- The filesystem state the deployment steps read and write. -/
structure FsState where
  deployDist : Option Content
  deployPackageJson : Option Content
  deployEcosystem : Option Content
  backups : List BackupDir
  lastBackupRef : Option Nat
deriving DecidableEq, Repr

/-- Outcomes of the external commands the steps invoke (pm2, npm, nginx,
curl, ...).  `healthOutcomes k` is whether the `curl` of attempt `k` of the
post-deployment `health_check` succeeds. -/
structure Oracle where
  userOk : Bool
  prereqOk : Bool
  preHookOk : Bool
  npmInstallOk : Bool
  npmBuildOk : Bool
  builtDist : Content
  indexAfterBuild : Bool
  pm2Ok : Bool
  nginxValid : Bool
  pm2Online : Bool
  healthOutcomes : Nat → Bool
  mainAppOk : Bool
  postHookOk : Bool

/-- The step functions `main` calls, plus a marker for the `rollback` the ERR
trap would run. -/
inductive Step where
  | checkUser
  | checkPrerequisites
  | preDeployHook
  | createBackup
  | installDependencies
  | buildApplication
  | deployWithPm2
  | reloadNginx
  | postDeploymentChecks
  | postDeployHook
  | cleanupBackups
  | rollback
deriving DecidableEq, Repr

/-- A step either leaves a new filesystem state or terminates the script with
an exit code and, when termination came from `error msg`, that message. -/
abbrev StepResult := Except (Nat × Option String) FsState

/-- Embeds `check_user` (deploy.sh lines 48-56): two tests, each `error`-ing out on
failure; `userOk` is their conjunction. -/
def check_user (o : Oracle) (fs : FsState) : StepResult :=
  if o.userOk then .ok fs
  else .error (1, some ("This script should be run as portfolio user."))

/-- Embeds `check_prerequisites` (deploy.sh lines 59-85): pm2 present, nginx active,
node present and recent enough; `prereqOk` is the conjunction. -/
def check_prerequisites (o : Oracle) (fs : FsState) : StepResult :=
  if o.prereqOk then .ok fs
  else .error (1, some ("Prerequisites check failed"))

/-- Embeds `pre_deploy_hook` (deploy.sh lines 265-276): optional `slack-notify`;
under `set -e` its failure terminates the script (with no `error` message). -/
def pre_deploy_hook (o : Oracle) (fs : FsState) : StepResult :=
  if o.preHookOk then .ok fs else .error (1, none)

/-- Embeds `create_backup` (deploy.sh lines 88-103).  `mkdir -p "$BACKUP_DIR"`
(line 92) creates the timestamped directory unconditionally; only when
`DEPLOY_PATH/dist` exists (line 94) are the `dist` tree and — when present —
`package.json` and `ecosystem.config.js` copied in and the directory recorded
in `/tmp/portfolio_last_backup` (line 99); otherwise the step logs a warning
and leaves an empty backup directory behind. -/
def create_backup (now : Nat) (fs : FsState) : StepResult :=
  .ok (match fs.deployDist with
    | some d =>
      { fs with
        backups := ⟨now, some d, fs.deployPackageJson, fs.deployEcosystem⟩ :: fs.backups
        lastBackupRef := some now }
    | none => { fs with backups := ⟨now, none, none, none⟩ :: fs.backups })

/-- Embeds `install_dependencies` (deploy.sh lines 129-142): `npm ci`/`npm install`;
failure terminates via `set -e`. -/
def install_dependencies (o : Oracle) (fs : FsState) : StepResult :=
  if o.npmInstallOk then .ok fs else .error (1, none)

/-- Embeds `build_application` (deploy.sh lines 145-159): `npm run build` (its
failure terminates via `set -e`), then the postcondition check
`[[ ! -f dist/index.html ]]` with `error "Build failed: dist/index.html not
found"` (lines 154-156).  A successful `npm run build` replaces
`DEPLOY_PATH/dist` with the freshly built tree. -/
def build_application (o : Oracle) (fs : FsState) : StepResult :=
  if o.npmBuildOk then
    if o.indexAfterBuild then .ok { fs with deployDist := some o.builtDist }
    else .error (1, some ("Build failed: dist/index.html not found"))
  else .error (1, none)

/-- Embeds `deploy_with_pm2` (deploy.sh lines 162-180): `pm2 reload`/`pm2 start` and
`pm2 save`; failure terminates via `set -e`. -/
def deploy_with_pm2 (o : Oracle) (fs : FsState) : StepResult :=
  if o.pm2Ok then .ok fs else .error (1, none)

/-- Embeds `reload_nginx` (deploy.sh lines 183-193): `sudo nginx -t`, then
`sudo systemctl reload nginx` when the test passes, else
`error "Nginx configuration test failed"`.  (The action-level trace of this
function machinery is modelled separately below for the edge-reload claim.) -/
def reload_nginx (o : Oracle) (fs : FsState) : StepResult :=
  if o.nginxValid then .ok fs
  else .error (1, some ("Nginx configuration test failed"))

/-- Embeds `post_deployment_checks` (deploy.sh lines 196-216): `pm2 describe | grep
online`, then `health_check "$HEALTH_CHECK_URL" 10`, then
`curl -f -s http://localhost:3000`; each failure `error`s out. -/
def post_deployment_checks (o : Oracle) (fs : FsState) : StepResult :=
  if o.pm2Online then
    if (health_check o.healthOutcomes 10).succeeded then
      if o.mainAppOk then .ok fs
      else .error (1, some ("Main application is not responding"))
    else .error (1, some ("Health check failed after 10 attempts"))
  else .error (1, some ("PM2 process is not online"))

/-- Embeds `post_deploy_hook` (deploy.sh lines 279-293): cache warm-up is
`curl ... || true` (cannot fail); optional `slack-notify` failure terminates
via `set -e`. -/
def post_deploy_hook (o : Oracle) (fs : FsState) : StepResult :=
  if o.postHookOk then .ok fs else .error (1, none)

/-- The `cleanup_backups` step (deploy.sh lines 253-262) applied to the
deployment state: the backup directory keeps only the survivors of
`ls -t | tail -n +6 | xargs -r rm -rf`, entries being ordered by their
creation timestamps. -/
def cleanup_backups_step (fs : FsState) : StepResult :=
  .ok { fs with backups := cleanup_backups BackupDir.timestamp fs.backups }

/-- The deployment steps of `main`, in source order (deploy.sh lines
305-316). -/
def deploySteps (o : Oracle) (now : Nat) : List (Step × (FsState → StepResult)) :=
  [ (.checkUser, check_user o)
  , (.checkPrerequisites, check_prerequisites o)
  , (.preDeployHook, pre_deploy_hook o)
  , (.createBackup, create_backup now)
  , (.installDependencies, install_dependencies o)
  , (.buildApplication, build_application o)
  , (.deployWithPm2, deploy_with_pm2 o)
  , (.reloadNginx, reload_nginx o)
  , (.postDeploymentChecks, post_deployment_checks o)
  , (.postDeployHook, post_deploy_hook o)
  , (.cleanupBackups, cleanup_backups_step) ]

/-- The observable result of one invocation of the default script entry:
the final filesystem state, the step functions that ran (in order), the exit
code, the terminating `error` message if any, and whether the ERR trap ran
`rollback`. -/
structure RunResult where
  fs : FsState
  trace : List Step
  exitCode : Nat
  errorMsg : Option String
  rollbackInvoked : Bool
deriving Repr

/-- Sequential execution of the steps under `set -euo pipefail`: each step
is entered (appended to the trace) and either yields the next state or
terminates the script at once.  Whether the `trap rollback ERR` handler runs
on a step failure is `errTrapRunsOnStepFailure` — per bash trap-inheritance
semantics, it does not. -/
def runSteps : List (Step × (FsState → StepResult)) → FsState → List Step → RunResult
  | [], fs, tr =>
    { fs := fs, trace := tr, exitCode := 0, errorMsg := none, rollbackInvoked := false }
  | (s, f) :: rest, fs, tr =>
    match f fs with
    | .ok fs' => runSteps rest fs' (tr ++ [s])
    | .error (c, m) =>
      if errTrapRunsOnStepFailure then
        { fs := fs, trace := tr ++ [s, .rollback], exitCode := c, errorMsg := m
          rollbackInvoked := true }
      else
        { fs := fs, trace := tr ++ [s], exitCode := c, errorMsg := m
          rollbackInvoked := false }

/-- Embeds `main` (deploy.sh lines 295-323): the default CLI entry, i.e. `deploy()`.
`now` is the timestamp `date +%Y%m%d_%H%M%S` gives `create_backup`. -/
def deployMain (o : Oracle) (now : Nat) (fs0 : FsState) : RunResult :=
  runSteps (deploySteps o now) fs0 []

/-! ## Action-level traces of `reload_nginx` and the two `rollback` variants

For the edge-reload and rollback claims the interesting object is the ordered
sequence of external commands a function executes.  We embed the bodies of
`reload_nginx` (deploy.sh 183-193), `rollback` of `src/scripts/deploy.sh`
(lines 218-251) and `rollback` of the enhanced script `src/unnamed/part_003`
(lines 219-288) command by command.  `error` (log + `exit 1`) terminates the
shell, so every command after an executed `error` is dead: the embedding
threads an explicit exited flag, and commands found after an exit are no-ops,
exactly as in bash. -/

inductive Action where
  | nginxTest
  | nginxReload
  | pm2Stop
  | pm2Delete
  | pm2Start
  | removeDist
  | restoreDist
  | restorePackageJson
  | restoreEcosystem
  | healthCheckRun
  | exitScript (code : Nat)
deriving DecidableEq, Repr

/-- A partially executed shell function body: the commands executed so far and
whether the shell has already exited (and with which code). -/
structure ShellRun where
  actions : List Action
  exited : Option Nat
deriving DecidableEq, Repr

/-- Execute one command, unless the shell has already exited. -/
def act (r : ShellRun) (a : Action) : ShellRun :=
  match r with
  | ⟨actions, none⟩ => ⟨actions ++ [a], none⟩
  | ⟨actions, some c⟩ => ⟨actions, some c⟩

/-- The `error` helper (deploy.sh lines 30-33): log, then `exit 1` — a no-op
when the shell has already exited. -/
def errorExit (r : ShellRun) : ShellRun :=
  match r with
  | ⟨actions, none⟩ => ⟨actions ++ [.exitScript 1], some 1⟩
  | ⟨actions, some c⟩ => ⟨actions, some c⟩

/-- The outside facts the rollback bodies branch on. -/
structure RollbackEnv where
  rollbackEnabled : Bool
  refFileExists : Bool
  backupDirExists : Bool
  deployDistExists : Bool
  backupHasPackageJson : Bool
  backupHasEcosystem : Bool
  cpOk : Bool
  pm2StartOk : Bool
  nginxValid : Bool
  healthOutcomes : Nat → Bool

/-- Embeds `reload_nginx` (deploy.sh lines 183-193) as a command trace:
`sudo nginx -t`; if it passes, `sudo systemctl reload nginx`; otherwise
`error "Nginx configuration test failed"`. -/
def reload_nginx_run (e : RollbackEnv) : ShellRun :=
  let r : ShellRun := ⟨[], none⟩
  let r := act r .nginxTest
  if e.nginxValid then act r .nginxReload else errorExit r

/-- Embeds `rollback` of `src/scripts/deploy.sh` (lines 218-251), line by line:

* lines 220-222: `[[ "$ROLLBACK_ENABLED" != "true" ]]` → `error "Rollback is
  disabled"`;
* line 224: `error "Deployment failed, initiating rollback..."` — note this is
  `error`, i.e. log + `exit 1`, not `warning`; execution never continues past
  this line;
* lines 226-250 (reached by no execution): the ref-file and directory checks,
  `pm2 stop`, `rm -rf dist`, `cp -r` restore, `pm2 start`, and a
  `sudo systemctl reload nginx` with no preceding `nginx -t`. -/
def rollback_deploy_sh (e : RollbackEnv) : ShellRun :=
  let r : ShellRun := ⟨[], none⟩
  let r := if e.rollbackEnabled then r else errorExit r
  let r := errorExit r
  if e.refFileExists then
    if e.backupDirExists then
      let r := act r .pm2Stop
      let r := act r .removeDist
      let r := act r .restoreDist
      let r := act r .pm2Start
      act r .nginxReload
    else errorExit r
  else errorExit r

/-- Embeds `rollback` of the enhanced script `src/unnamed/part_003` (lines 219-288),
line by line: the enabled check; a `warning` (not `error`) at line 224; the
ref-file and directory checks; `pm2 stop || warning` and `pm2 delete || true`;
`rm -rf dist` only if it exists (lines 238-240); the `cp -r` restore with
`error` on failure (lines 242-246); conditional metadata restores (lines
249-254); `pm2 start` with `error` on failure (lines 260-264); `nginx -t`,
reloading only when it passes and merely warning otherwise (lines 267-273);
then `sleep 10` and `health_check "$HEALTH_CHECK_URL" 5` (lines 276-281) — on
exhausted attempts `health_check` itself `error`s out (line 124 of the
script), and on success the function reports "Rollback completed
successfully".  The body is factored over the health-check outcome
`healthOk`, which the wrapper below computes from the environment. -/
def rollback_part_003_body (e : RollbackEnv) (healthOk : Bool) : ShellRun :=
  let r : ShellRun := ⟨[], none⟩
  let r := if e.rollbackEnabled then r else errorExit r
  if e.refFileExists then
    if e.backupDirExists then
      let r := act r .pm2Stop
      let r := act r .pm2Delete
      let r := if e.deployDistExists then act r .removeDist else r
      let r := act r .restoreDist
      let r := if e.cpOk then r else errorExit r
      let r := if e.backupHasPackageJson then act r .restorePackageJson else r
      let r := if e.backupHasEcosystem then act r .restoreEcosystem else r
      let r := act r .pm2Start
      let r := if e.pm2StartOk then r else errorExit r
      let r := act r .nginxTest
      let r := if e.nginxValid then act r .nginxReload else r
      let r := act r .healthCheckRun
      if healthOk then r else errorExit r
    else errorExit r
  else errorExit r

/-- The enhanced rollback itself: its health-check outcome is the result of
the five-attempt retry loop against the configured health endpoint. -/
def rollback_part_003 (e : RollbackEnv) : ShellRun :=
  rollback_part_003_body e ((health_check e.healthOutcomes 5).succeeded)

/-- Scan of a command trace: `true` iff every `nginxReload` occurrence comes
after some earlier `nginxTest` in the same trace.  The accumulator records
whether a test has been seen. -/
def reloadAfterTestGo : Bool → List Action → Bool
  | _, [] => true
  | _, .nginxTest :: rest => reloadAfterTestGo true rest
  | seen, .nginxReload :: rest => seen && reloadAfterTestGo seen rest
  | seen, _ :: rest => reloadAfterTestGo seen rest

/-- Every proxy reload in the trace is preceded by a validation. -/
def reloadPrecededByTest (tr : List Action) : Bool := reloadAfterTestGo false tr

end DeployScript

namespace HealthService

/-- Embeds `CONFIG.timeout` (part_004 line 21):
`parseInt(process.env.HEALTH_CHECK_TIMEOUT) || 5000`.  `env` is the parsed
environment value when one is set and parses to a number; `parseInt` yielding
`NaN` is folded into `none`, and JavaScript `||` replaces `0` (falsy) by the
default. -/
def CONFIG_timeout (env : Option Nat) : Nat :=
  match env with
  | some v => if v = 0 then 5000 else v
  | none => 5000

/-- Embeds `checkMainApp` sets `timeout: CONFIG.timeout` on its request options
(part_004 line 81), and the `timeout` event destroys the request and resolves
the sub-check as unhealthy (lines 105-113). -/
def checkMainApp_requestTimeout (env : Option Nat) : Nat := CONFIG_timeout env

end HealthService

namespace DeployScript

/-! ## Concrete states used to evaluate the models -/

/-- An oracle in which every external command succeeds and the build leaves a
fresh dist tree behind. -/
def oAllOk : Oracle where
  userOk := true
  prereqOk := true
  preHookOk := true
  npmInstallOk := true
  npmBuildOk := true
  builtDist := [7, 8, 9]
  indexAfterBuild := true
  pm2Ok := true
  nginxValid := true
  pm2Online := true
  healthOutcomes := fun _ => true
  mainAppOk := true
  postHookOk := true

/-- Like `oAllOk`, but every curl of the post-deployment health check fails,
so `health_check` exhausts its 10 attempts. -/
def oHealthFail : Oracle := { oAllOk with healthOutcomes := fun _ => false }

/-- Like `oAllOk`, but `npm run build` leaves no `dist/index.html` behind. -/
def oBuildNoIndex : Oracle := { oAllOk with indexAfterBuild := false }

/-- A host with a live release `[1, 2, 3]`, both metadata files, and six
prior backups with timestamps 1 to 6. -/
def fsPrior : FsState where
  deployDist := some [1, 2, 3]
  deployPackageJson := some [4]
  deployEcosystem := some [5]
  backups := [⟨6, some [16], none, none⟩, ⟨5, some [15], none, none⟩,
              ⟨4, some [14], none, none⟩, ⟨3, some [13], none, none⟩,
              ⟨2, some [12], none, none⟩, ⟨1, some [11], none, none⟩]
  lastBackupRef := some 6

/-- A fresh host: no release deployed yet, no backups. -/
def fsEmpty : FsState where
  deployDist := none
  deployPackageJson := none
  deployEcosystem := none
  backups := []
  lastBackupRef := none

/-- A rollback environment in which everything is in place and every external
command succeeds. -/
def rbAllOk : RollbackEnv where
  rollbackEnabled := true
  refFileExists := true
  backupDirExists := true
  deployDistExists := true
  backupHasPackageJson := true
  backupHasEcosystem := true
  cpOk := true
  pm2StartOk := true
  nginxValid := true
  healthOutcomes := fun _ => true

/-- Seven distinct backup-directory entries. -/
def dir7 : List DirEntry :=
  [⟨"20250101_000000", 1⟩, ⟨"20250102_000000", 2⟩, ⟨"20250103_000000", 3⟩,
   ⟨"20250104_000000", 4⟩, ⟨"20250105_000000", 5⟩, ⟨"20250106_000000", 6⟩,
   ⟨"20250107_000000", 7⟩]

end DeployScript

/-! # Theorems

Helper lemmas first, then the theorems settling the frozen claims, with
witnesses and counterexamples where needed. -/

namespace HealthService

/-- Helper: the aggregate status value computed by `runHealthChecks` is
healthy iff every check in the list is healthy. -/
theorem all_healthy_iff (l : List CheckResult) :
    (if l.all (fun c => c.status = Status.healthy) then Status.healthy
      else Status.unhealthy) = Status.healthy
      ↔ ∀ c ∈ l, c.status = Status.healthy := by
  by_cases hb : l.all (fun c => c.status = Status.healthy) = true
  · rw [if_pos hb]
    simp only [List.all_eq_true, decide_eq_true_eq] at hb
    exact iff_of_true rfl hb
  · rw [if_neg hb]
    simp only [List.all_eq_true, decide_eq_true_eq] at hb
    exact iff_of_false (by simp) hb

/-- C4: in every report the health service produces, the overall status is
healthy exactly when every sub-check is healthy (a plain conjunction, no
weighting), and the `/health` endpoint serves status code 200 when the overall
status is healthy and 503 otherwise. -/
theorem health_overall_conjunction_and_code (e : ProbeEnv) :
    ((runHealthChecks e).status = Status.healthy ↔
      ∀ c ∈ (runHealthChecks e).checks, c.status = Status.healthy)
    ∧ (handleHealthCheck e).1
        = (if (runHealthChecks e).status = Status.healthy then 200 else 503) :=
  ⟨all_healthy_iff [checkMainApp e, checkFilesystem e, checkSystemResources e], rfl⟩

/-- C8: the liveness endpoint answers 200 for every state of the world — in
particular its answer is the same for any two states, so it is independent of
every sub-check result and of the `/health` status. -/
theorem liveness_always_200 (e eAlt : ProbeEnv) :
    handleLivenessCheck e = 200 ∧ handleLivenessCheck e = handleLivenessCheck eAlt :=
  ⟨rfl, rfl⟩

/-- C10: the `/metrics` endpoint always answers with status code 200 — never
503 — the overall gauge renders as 1 when healthy and 0 when unhealthy, and
every sub-check gauge renders as 0 or 1. -/
theorem metrics_always_200 (e : ProbeEnv) (uptime : Nat) :
    (handleMetrics e uptime).statusCode = 200
    ∧ (handleMetrics e uptime).overallGauge
        = (if (runHealthChecks e).status = Status.healthy then 1 else 0)
    ∧ ∀ g ∈ (handleMetrics e uptime).checkGauges, g.2 = 0 ∨ g.2 = 1 := by
  refine ⟨rfl, rfl, ?_⟩
  intro g hg
  simp only [handleMetrics, List.mem_map] at hg
  obtain ⟨c, _, rfl⟩ := hg
  by_cases h : c.status = Status.healthy <;> simp [gaugeValue, h]

end HealthService

namespace DeployScript

/-- Helper: the retry loop makes at most `fuel` curl attempts. -/
theorem healthCheckGo_attempts_le (outcomes : Nat → Bool) :
    ∀ (fuel attempt : Nat), (healthCheckGo outcomes attempt fuel).attemptsMade ≤ fuel := by
  intro fuel
  induction fuel with
  | zero => intro attempt; simp [healthCheckGo]
  | succ n ih =>
    intro attempt
    simp only [healthCheckGo]
    by_cases h : outcomes attempt = true
    · rw [if_pos h]
      simp
    · rw [if_neg h]
      simpa using Nat.succ_le_succ (ih (attempt + 1))

/-- C9 (amended): every health-check invocation makes a bounded number of
attempts — the shell loop at most `max_attempts` curl calls with fixed sleeps,
and the Node probe carries a positive request timeout (`CONFIG.timeout`,
default 5000 ms) — but the curl command of the shell loop is invoked with no
per-attempt timeout option at all. -/
theorem health_checks_bounded (outcomes : Nat → Bool) (maxAttempts : Nat)
    (env : Option Nat) :
    (health_check outcomes maxAttempts).attemptsMade ≤ maxAttempts
    ∧ 0 < HealthService.CONFIG_timeout env
    ∧ curlHasTimeoutFlag = false := by
  refine ⟨healthCheckGo_attempts_le outcomes maxAttempts 1, ?_, rfl⟩
  cases env with
  | none => norm_num [HealthService.CONFIG_timeout]
  | some v =>
    by_cases hv : v = 0
    · norm_num [HealthService.CONFIG_timeout, hv]
    · simp only [HealthService.CONFIG_timeout, if_neg hv]
      exact Nat.pos_of_ne_zero hv

/-- C9 counterexample: the claim says each HTTP health check has a bounded
per-attempt timeout, but the shell health check invokes curl as
`curl -f -s "$url"` — no timeout option — while the `HEALTH_CHECK_TIMEOUT`
variable of deploy.sh is set to 30 and never used. -/
theorem shell_curl_no_timeout_flag :
    curlHasTimeoutFlag = false ∧ curlFlags = ["-f", "-s"]
    ∧ HEALTH_CHECK_TIMEOUT = 30 :=
  ⟨rfl, rfl, rfl⟩

/-- Helper: a filter over a list splits at any take/drop point. -/
theorem filter_split_take_drop {α : Type} (p : α → Bool) (s : List α) (n : Nat) :
    s.filter p = (s.take n).filter p ++ (s.drop n).filter p := by
  rw [← List.filter_append, List.take_append_drop]

/-- Helper: filtering a list by non-membership in its own drop keeps at most
`n` elements. -/
theorem filter_not_mem_drop_length_le {α : Type} [DecidableEq α]
    (s : List α) (n : Nat) :
    (s.filter (fun e => !((s.drop n).contains e))).length ≤ n := by
  rw [filter_split_take_drop _ s n]
  have h2 : (s.drop n).filter (fun e => !((s.drop n).contains e)) = [] := by
    apply List.filter_eq_nil_iff.mpr
    intro a ha
    simpa using ha
  rw [h2, List.append_nil]
  exact le_trans (List.length_filter_le _ _) (List.length_take_le n s)

/-- Helper: for a duplicate-free list, filtering by non-membership in its own
drop keeps exactly the first `n` elements. -/
theorem filter_not_mem_drop_of_nodup {α : Type} [DecidableEq α]
    (s : List α) (n : Nat) (h : s.Nodup) :
    s.filter (fun e => !((s.drop n).contains e)) = s.take n := by
  rw [filter_split_take_drop _ s n]
  have h2 : (s.drop n).filter (fun e => !((s.drop n).contains e)) = [] := by
    apply List.filter_eq_nil_iff.mpr
    intro a ha
    simpa using ha
  have h3 : (s.take n).filter (fun e => !((s.drop n).contains e)) = s.take n := by
    apply List.filter_eq_self.mpr
    intro a ha
    have hdisj : List.Disjoint (s.take n) (s.drop n) :=
      List.disjoint_take_drop h le_rfl
    have hnot : a ∉ s.drop n := fun hd => hdisj ha hd
    simpa using hnot
  rw [h2, h3, List.append_nil]

/-- Helper: `cleanup_backups` never leaves more than five entries. -/
theorem cleanup_backups_length_le {α : Type} [DecidableEq α] (mtime : α → Nat)
    (dir : List α) : (cleanup_backups mtime dir).length ≤ 5 := by
  have hperm : List.Perm (lsT mtime dir) dir := List.perm_insertionSort _ _
  have hcb : cleanup_backups mtime dir
      = dir.filter (fun e => !(((lsT mtime dir).drop 5).contains e)) := rfl
  rw [hcb, ← (hperm.filter (fun e => !(((lsT mtime dir).drop 5).contains e))).length_eq]
  exact filter_not_mem_drop_length_le (lsT mtime dir) 5

/-- C5: after `cleanup_backups` runs, at most five backup entries remain,
regardless of how many existed before; for a directory of distinct entries the
survivors are exactly the first five of the newest-first listing — everything
beyond the fifth is deleted. -/
theorem cleanup_retention (dir : List DirEntry) (h : dir.Nodup) :
    (cleanup_backups DirEntry.mtime dir).length ≤ 5
    ∧ List.Perm (cleanup_backups DirEntry.mtime dir)
        ((lsT DirEntry.mtime dir).take 5) := by
  refine ⟨cleanup_backups_length_le _ _, ?_⟩
  have hperm : List.Perm (lsT DirEntry.mtime dir) dir := List.perm_insertionSort _ _
  have hs : (lsT DirEntry.mtime dir).Nodup := (hperm.nodup_iff).mpr h
  have hcb : cleanup_backups DirEntry.mtime dir
      = dir.filter (fun e => !(((lsT DirEntry.mtime dir).drop 5).contains e)) := rfl
  have h4 := filter_not_mem_drop_of_nodup (lsT DirEntry.mtime dir) 5 hs
  rw [hcb, ← h4]
  exact (hperm.filter _).symm

/-- C5 witness: a concrete backup directory of seven distinct entries, run
through the retention theorem. -/
theorem cleanup_retention_witness :
    (cleanup_backups DirEntry.mtime dir7).length ≤ 5
    ∧ List.Perm (cleanup_backups DirEntry.mtime dir7)
        ((lsT DirEntry.mtime dir7).take 5) :=
  cleanup_retention dir7 (by decide)

end DeployScript

namespace DeployScript

/-- C1 (code-bug evaluation): with every external command succeeding the
eleven step functions run in exactly the source order — `check_user` plus
`check_prerequisites` realise the validate-environment step of the spec — and
the run exits 0.  When the post-deployment health check fails, the run stops
right there with exit code 1: the remaining steps are short-circuited, but
`rollback` is NOT invoked, because the ERR trap installed by `main` never
fires for a failure raised inside a step function (no errtrace, and the
`error` helper exits the shell directly). -/
theorem deploy_step_order_and_no_rollback :
    (deployMain oAllOk 100 fsPrior).trace =
      [Step.checkUser, Step.checkPrerequisites, Step.preDeployHook,
       Step.createBackup, Step.installDependencies, Step.buildApplication,
       Step.deployWithPm2, Step.reloadNginx, Step.postDeploymentChecks,
       Step.postDeployHook, Step.cleanupBackups]
    ∧ (deployMain oAllOk 100 fsPrior).exitCode = 0
    ∧ (deployMain oHealthFail 100 fsPrior).trace =
      [Step.checkUser, Step.checkPrerequisites, Step.preDeployHook,
       Step.createBackup, Step.installDependencies, Step.buildApplication,
       Step.deployWithPm2, Step.reloadNginx, Step.postDeploymentChecks]
    ∧ (deployMain oHealthFail 100 fsPrior).exitCode = 1
    ∧ (deployMain oHealthFail 100 fsPrior).rollbackInvoked = false
    ∧ Step.rollback ∉ (deployMain oHealthFail 100 fsPrior).trace := by
  refine ⟨by decide, by decide, by decide, by decide, by decide, by decide⟩

/-- C3: whenever the steps before the build succeed, `npm run build` exits 0,
but no `dist/index.html` is left behind, the run terminates with the
build-incomplete error and exit code 1, and the process-reload step
(`deploy_with_pm2`) is never invoked. -/
theorem build_incomplete_stops_deploy (o : Oracle) (now : Nat) (fs0 : FsState)
    (h1 : o.userOk = true) (h2 : o.prereqOk = true) (h3 : o.preHookOk = true)
    (h4 : o.npmInstallOk = true) (h5 : o.npmBuildOk = true)
    (h6 : o.indexAfterBuild = false) :
    (deployMain o now fs0).errorMsg = some ("Build failed: dist/index.html not found")
    ∧ (deployMain o now fs0).exitCode = 1
    ∧ Step.deployWithPm2 ∉ (deployMain o now fs0).trace := by
  refine ⟨?_, ?_, ?_⟩ <;>
    simp [deployMain, deploySteps, runSteps, check_user, check_prerequisites,
      pre_deploy_hook, create_backup, install_dependencies, build_application,
      errTrapRunsOnStepFailure, h1, h2, h3, h4, h5, h6]

/-- C3 witness: the theorem evaluated on a concrete oracle whose build leaves
no entry file. -/
theorem build_incomplete_stops_deploy_witness :
    (deployMain oBuildNoIndex 100 fsPrior).errorMsg
        = some ("Build failed: dist/index.html not found")
    ∧ (deployMain oBuildNoIndex 100 fsPrior).exitCode = 1
    ∧ Step.deployWithPm2 ∉ (deployMain oBuildNoIndex 100 fsPrior).trace :=
  build_incomplete_stops_deploy oBuildNoIndex 100 fsPrior rfl rfl rfl rfl rfl rfl

/-- Helper: an entry strictly newer than every other entry of the directory
never lands among the doomed lines of the cleanup listing. -/
theorem fresh_not_in_doomed {α : Type} [DecidableEq α] (mtime : α → Nat)
    (x : α) (rest : List α) (h : ∀ b ∈ rest, mtime b < mtime x) :
    x ∉ (lsT mtime (x :: rest)).drop 5 := by
  intro hx
  have hperm : List.Perm (lsT mtime (x :: rest)) (x :: rest) :=
    List.perm_insertionSort _ _
  have hsorted : (lsT mtime (x :: rest)).Sorted (newestFirst mtime) :=
    List.sorted_insertionSort _ _
  have hxrest : x ∉ rest := fun hr => absurd (h x hr) (lt_irrefl _)
  have hlen5 : 5 < (lsT mtime (x :: rest)).length := by
    by_contra hle
    push_neg at hle
    rw [List.drop_eq_nil_iff.mpr hle] at hx
    exact absurd hx (List.not_mem_nil x)
  obtain ⟨y, hy⟩ : ∃ y, y ∈ (lsT mtime (x :: rest)).take 5 := by
    apply List.exists_mem_of_ne_nil
    intro hnil
    have hlt := congrArg List.length hnil
    rw [List.length_take] at hlt
    simp only [List.length_nil] at hlt
    omega
  have hrel : newestFirst mtime y x :=
    List.Sorted.rel_of_mem_take_of_mem_drop hsorted hy hx
  have hymem : y ∈ lsT mtime (x :: rest) := List.take_subset 5 _ hy
  rcases List.mem_cons.mp (hperm.subset hymem) with heq | hyr
  · rw [heq] at hy
    have hcount1 : (lsT mtime (x :: rest)).count x = 1 := by
      rw [hperm.count_eq]
      simp [List.count_cons_self, List.count_eq_zero.mpr hxrest]
    have hsplit : (lsT mtime (x :: rest)).count x
        = ((lsT mtime (x :: rest)).take 5).count x
          + ((lsT mtime (x :: rest)).drop 5).count x := by
      conv_lhs => rw [← List.take_append_drop 5 (lsT mtime (x :: rest))]
      exact List.count_append _ _ _
    have c1 : 0 < ((lsT mtime (x :: rest)).take 5).count x := List.count_pos_iff.mpr hy
    have c2 : 0 < ((lsT mtime (x :: rest)).drop 5).count x := List.count_pos_iff.mpr hx
    omega
  · exact absurd hrel (not_le.mpr (h y hyr))

/-- Helper: cleaning up a directory whose strictly newest entry is `x` keeps
`x`, and `x` is the only survivor carrying its timestamp. -/
theorem cleanup_fresh_cons {α : Type} [DecidableEq α] (mtime : α → Nat)
    (x : α) (rest : List α) (h : ∀ b ∈ rest, mtime b < mtime x) :
    (cleanup_backups mtime (x :: rest)).filter (fun b => mtime b == mtime x)
      = [x] := by
  have hx : x ∉ (lsT mtime (x :: rest)).drop 5 := fresh_not_in_doomed mtime x rest h
  have hcb : cleanup_backups mtime (x :: rest)
      = (x :: rest).filter
          (fun e => !(((lsT mtime (x :: rest)).drop 5).contains e)) := rfl
  have hpx : (!(((lsT mtime (x :: rest)).drop 5).contains x)) = true := by
    cases hcc : ((lsT mtime (x :: rest)).drop 5).contains x
    · rfl
    · exact absurd (List.elem_iff.mp hcc) hx
  have hstep1 : (x :: rest).filter
        (fun e => !(((lsT mtime (x :: rest)).drop 5).contains e))
      = x :: rest.filter
          (fun e => !(((lsT mtime (x :: rest)).drop 5).contains e)) := by
    simp [List.filter_cons, hpx, hx]
  have hstep2 : (x :: rest.filter
          (fun e => !(((lsT mtime (x :: rest)).drop 5).contains e))).filter
        (fun b => mtime b == mtime x)
      = x :: (rest.filter
          (fun e => !(((lsT mtime (x :: rest)).drop 5).contains e))).filter
          (fun b => mtime b == mtime x) := by
    simp [List.filter_cons]
  have hnil : (rest.filter
        (fun e => !(((lsT mtime (x :: rest)).drop 5).contains e))).filter
      (fun b => mtime b == mtime x) = [] := by
    apply List.filter_eq_nil_iff.mpr
    intro a ha
    have har : a ∈ rest := List.mem_of_mem_filter ha
    simp [Nat.ne_of_lt (h a har)]
  rw [hcb, hstep1, hstep2, hnil]

/-- C6 (amended): a successful deployment on a host with a live release
creates exactly one new backup — the unique survivor stamped with the
deployment timestamp — and it carries the prior dist tree byte for byte
together with whatever metadata files were present. -/
theorem successful_deploy_one_backup (o : Oracle) (now : Nat) (fs0 : FsState)
    (d : Content)
    (h1 : o.userOk = true) (h2 : o.prereqOk = true) (h3 : o.preHookOk = true)
    (h4 : o.npmInstallOk = true) (h5 : o.npmBuildOk = true)
    (h6 : o.indexAfterBuild = true) (h7 : o.pm2Ok = true)
    (h8 : o.nginxValid = true) (h9 : o.pm2Online = true)
    (h10 : (health_check o.healthOutcomes 10).succeeded = true)
    (h11 : o.mainAppOk = true) (h12 : o.postHookOk = true)
    (hd : fs0.deployDist = some d)
    (hfresh : ∀ b ∈ fs0.backups, b.timestamp < now) :
    (deployMain o now fs0).exitCode = 0
    ∧ (deployMain o now fs0).fs.backups.filter (fun b => b.timestamp == now)
        = [⟨now, some d, fs0.deployPackageJson, fs0.deployEcosystem⟩] := by
  constructor
  · simp [deployMain, deploySteps, runSteps, check_user, check_prerequisites,
      pre_deploy_hook, create_backup, install_dependencies, build_application,
      deploy_with_pm2, reload_nginx, post_deployment_checks, post_deploy_hook,
      cleanup_backups_step, h1, h2, h3, h4, h5, h6, h7, h8, h9, h10, h11, h12, hd]
  · have hfs : (deployMain o now fs0).fs.backups
        = cleanup_backups BackupDir.timestamp
            (⟨now, some d, fs0.deployPackageJson, fs0.deployEcosystem⟩
              :: fs0.backups) := by
      simp [deployMain, deploySteps, runSteps, check_user, check_prerequisites,
        pre_deploy_hook, create_backup, install_dependencies, build_application,
        deploy_with_pm2, reload_nginx, post_deployment_checks, post_deploy_hook,
        cleanup_backups_step, h1, h2, h3, h4, h5, h6, h7, h8, h9, h10, h11, h12, hd]
    rw [hfs]
    exact cleanup_fresh_cons BackupDir.timestamp
      ⟨now, some d, fs0.deployPackageJson, fs0.deployEcosystem⟩ fs0.backups hfresh

/-- C6 witness: the amended theorem evaluated on a concrete host with a live
release, both metadata files and six older backups. -/
theorem successful_deploy_one_backup_witness :
    (deployMain oAllOk 100 fsPrior).exitCode = 0
    ∧ (deployMain oAllOk 100 fsPrior).fs.backups.filter
        (fun b => b.timestamp == 100)
        = [⟨100, some [1, 2, 3], some [4], some [5]⟩] :=
  successful_deploy_one_backup oAllOk 100 fsPrior [1, 2, 3]
    rfl rfl rfl rfl rfl rfl rfl rfl rfl rfl rfl rfl rfl (by decide)

/-- C6 counterexample: on a fresh host with no live release the deployment
completes successfully, yet the only new backup entry is an empty timestamped
directory — no new backup containing a dist tree exists afterwards. -/
theorem deploy_no_prior_release_empty_backup :
    (deployMain oAllOk 100 fsEmpty).exitCode = 0
    ∧ (deployMain oAllOk 100 fsEmpty).fs.backups = [⟨100, none, none, none⟩]
    ∧ ¬ ∃ b ∈ (deployMain oAllOk 100 fsEmpty).fs.backups,
        b.timestamp = 100 ∧ b.dist ≠ none := by
  refine ⟨by decide, by decide, by decide⟩

/-- C2 (code-bug evaluation): in an environment where rollback is enabled,
the backup reference and directory exist, and every external command
succeeds, the rollback of `src/scripts/deploy.sh` exits immediately — its
restore, restart and nginx-reload code is dead — while the enhanced rollback
of `part_003` restores the recorded backup, restarts the service and re-runs
the health check before reporting success. -/
theorem rollback_variants_eval :
    (rollback_deploy_sh rbAllOk).actions = [Action.exitScript 1]
    ∧ (rollback_deploy_sh rbAllOk).exited = some 1
    ∧ (rollback_part_003 rbAllOk).actions =
        [Action.pm2Stop, Action.pm2Delete, Action.removeDist,
         Action.restoreDist, Action.restorePackageJson,
         Action.restoreEcosystem, Action.pm2Start, Action.nginxTest,
         Action.nginxReload, Action.healthCheckRun]
    ∧ (rollback_part_003 rbAllOk).exited = none := by
  refine ⟨by decide, by decide, by decide, by decide⟩

set_option maxHeartbeats 1600000 in
/-- C7: every execution path that reloads the reverse proxy validates the
configuration first: `reload_nginx` tests before reloading and aborts (live
configuration untouched) when the test fails; the enhanced rollback reloads
only after its own `nginx -t` passes; and the rollback of deploy.sh never
reaches its unvalidated reload at all, since the `error` call at its head
exits the script. -/
theorem edge_reload_always_validated (e : RollbackEnv) :
    reloadPrecededByTest (reload_nginx_run e).actions = true
    ∧ (!((reload_nginx_run e).actions.contains Action.nginxReload)
        || e.nginxValid) = true
    ∧ reloadPrecededByTest (rollback_part_003 e).actions = true
    ∧ (!((rollback_part_003 e).actions.contains Action.nginxReload)
        || e.nginxValid) = true
    ∧ (rollback_deploy_sh e).actions.contains Action.nginxReload = false := by
  obtain ⟨en, ref, dir, dd, pj, ec, cp, st, nv, ho⟩ := e
  refine ⟨?_, ?_, ?_, ?_, ?_⟩
  · cases nv <;> rfl
  · cases nv <;> rfl
  · simp only [rollback_part_003]
    generalize (health_check ho 5).succeeded = hb
    cases hb <;> cases en <;> cases ref <;> cases dir <;> cases dd <;>
      cases pj <;> cases ec <;> cases cp <;> cases st <;> cases nv <;> rfl
  · simp only [rollback_part_003]
    generalize (health_check ho 5).succeeded = hb
    cases hb <;> cases en <;> cases ref <;> cases dir <;> cases dd <;>
      cases pj <;> cases ec <;> cases cp <;> cases st <;> cases nv <;> rfl
  · cases en <;> cases ref <;> cases dir <;> rfl

end DeployScript
